import Mathlib

/-!
Shallow embedding of the realtime screen-sharing relay in src/main.py.

Bytes are modelled as natural numbers (each in 0..255; no arithmetic in the
source ever wraps, so no modular reduction is needed). External
collaborators (the inference session, the transcription model, the audio
codec library, JSON parsing by the transport layer) are modelled at their
interface boundary: the parse result of a client message is an inductive
datum, the codec and the remote transcription call are function parameters
returning Option (none models a raised exception caught by the source's
try/except blocks).
-/

namespace ScreenShare

/-- Outbound message to the client, as built by send_to_client callers in
src/main.py: exactly one key, either text or audio (base64 string). -/
inductive OutMsg where
  | text (s : String)
  | audio (b64 : String)
deriving DecidableEq

/-- Standard base64 alphabet, as used by base64.b64encode. -/
def b64Alphabet : List Char :=
  "ABCDEFGHIJKLMNOPQRSTUVWXYZabcdefghijklmnopqrstuvwxyz0123456789+/".toList

/-- Character of the base64 alphabet at a 6-bit index. -/
def b64CharAt (i : Nat) : Char := b64Alphabet.getD i '='

/-- Standard base64 encoding of a byte sequence (model of
base64.b64encode, with = padding). -/
def base64Encode : List Nat → String
  | [] => ""
  | [b0] =>
      String.mk [b64CharAt (b0 / 4), b64CharAt (b0 % 4 * 16), '=', '=']
  | [b0, b1] =>
      String.mk [b64CharAt (b0 / 4), b64CharAt (b0 % 4 * 16 + b1 / 16),
                 b64CharAt (b1 % 16 * 4), '=']
  | b0 :: b1 :: b2 :: rest =>
      String.mk [b64CharAt (b0 / 4), b64CharAt (b0 % 4 * 16 + b1 / 16),
                 b64CharAt (b1 % 16 * 4 + b2 / 64), b64CharAt (b2 % 64)]
        ++ base64Encode rest

/-- A media chunk of a realtime_input client message (src/main.py line 67).
Both fields model Python dict entries that may be absent: mime_type is read
with chunk.get (absent gives None), data with chunk["data"] (absent raises
KeyError). -/
structure Chunk where
  mime_type : Option String
  data : Option String
deriving DecidableEq

/-- The realtime_input object; media_chunks absent models the KeyError on
data["realtime_input"]["media_chunks"]. -/
structure RealtimeInput where
  media_chunks : Option (List Chunk)
deriving DecidableEq

/-- A client message that json.loads parsed successfully; realtime_input
is none when the key is absent from the top-level object. -/
structure ParsedMsg where
  realtime_input : Option RealtimeInput
deriving DecidableEq

/-- Parse outcome of one inbound client message: invalid models a
json.JSONDecodeError raised by json.loads. -/
inductive ClientMsg where
  | invalid
  | parsed (obj : ParsedMsg)
deriving DecidableEq

/-- The record handed to InferenceSession.send for one accepted chunk
(src/main.py lines 54-59). -/
structure SendRec where
  mime_type : String
  data : String
deriving DecidableEq

/-- Model of process_media_chunk (src/main.py lines 50-59): look up
mime_type with get; when it is exactly audio/pcm or image/jpeg, send a
record with that tag and the data field, whose absence raises KeyError
(modelled as Except.error naming the missing key); otherwise send
nothing. -/
def process_media_chunk (chunk : Chunk) : Except String (Option SendRec) :=
  match chunk.mime_type with
  | some m =>
      if m = "audio/pcm" ∨ m = "image/jpeg" then
        match chunk.data with
        | some d => Except.ok (some ⟨m, d⟩)
        | none => Except.error "data"
      else Except.ok none
  | none => Except.ok none

/-- The for-loop over media_chunks in handle_client_message (src/main.py
line 67): chunks are processed in order; a KeyError aborts the remaining
chunks and is reported in the second component (sends already made are
kept, matching the awaits already performed). -/
def processChunks : List Chunk → List SendRec × Option String
  | [] => ([], none)
  | c :: rest =>
      match process_media_chunk c with
      | Except.error e => ([], some e)
      | Except.ok none => processChunks rest
      | Except.ok (some r) => ((r :: (processChunks rest).1), (processChunks rest).2)

/-- Model of handle_client_message (src/main.py lines 62-74): invalid JSON
and the absence of realtime_input send nothing; a KeyError anywhere in the
chunk loop is caught here, so only the sends already made survive. -/
def handle_client_message (msg : ClientMsg) : List SendRec :=
  match msg with
  | ClientMsg.invalid => []
  | ClientMsg.parsed obj =>
      match obj.realtime_input with
      | none => []
      | some ri =>
          match ri.media_chunks with
          | none => []
          | some chunks => (processChunks chunks).1

/-- Model of client_to_gemini_loop (src/main.py lines 139-152): each
message from the client channel is handled in turn; handler errors are
caught inside handle_client_message, so the loop runs over the whole
message sequence until the channel closes. The value is the full sequence
of records sent to the InferenceSession. -/
def client_to_gemini_loop : List ClientMsg → List SendRec
  | [] => []
  | m :: rest => handle_client_message m ++ client_to_gemini_loop rest

/-- A part of a model turn (src/main.py lines 107-111). text is none when
the attribute is absent or None; inline_data is none when the attribute is
absent (the source dereferences part.inline_data.data, so a present
inline_data is an object whose data field we model directly as the byte
list, possibly empty). -/
structure Part where
  text : Option String
  inline_data : Option (List Nat)
deriving DecidableEq

/-- Truthiness test of the source condition
hasattr(part, "text") and part.text: a present, non-empty string. -/
def part_text_val (p : Part) : Option String :=
  match p.text with
  | some t => if t = "" then none else some t
  | none => none

/-- Truthiness test of the source condition
hasattr(part, "inline_data") and part.inline_data.data: present, non-empty
bytes. -/
def part_inline_val (p : Part) : Option (List Nat) :=
  match p.inline_data with
  | some d => if d = [] then none else some d
  | none => none

/-- Model of handle_audio_part (src/main.py lines 90-94): base64-encode
the bytes, send an audio message, and extend the turn-audio buffer with
the raw bytes. Returns the new buffer and the messages sent. -/
def handle_audio_part (audio_data : List Nat) (audio : List Nat) :
    List Nat × List OutMsg :=
  (audio_data ++ audio, [OutMsg.audio (base64Encode audio)])

/-- Model of handle_text_part (src/main.py lines 85-87). -/
def handle_text_part (t : String) : List OutMsg := [OutMsg.text t]

/-- Result of processing remote events: the turn-audio buffer afterward,
the messages sent to the client in order, and the inputs on which
transcribe_audio was invoked. -/
structure TurnResult where
  audio_data : List Nat
  sent : List OutMsg
  transcribeCalls : List (List Nat)
deriving DecidableEq

/-- Model of handle_turn_complete (src/main.py lines 97-103),
parameterised by the transcription function (none models a falsy return,
i.e. None). When the buffer is non-empty: call the transcriber, send a
text message when the result is truthy (a non-empty string), then reset
the buffer to empty. When the buffer is empty: do nothing. -/
def handle_turn_complete (transcribe : List Nat → Option String)
    (audio_data : List Nat) : TurnResult :=
  if audio_data = [] then
    { audio_data := audio_data, sent := [], transcribeCalls := [] }
  else
    { audio_data := [],
      sent :=
        match transcribe audio_data with
        | some t => if t = "" then [] else [OutMsg.text t]
        | none => [],
      transcribeCalls := [audio_data] }

/-- Dispatch on one part inside handle_model_turn (src/main.py lines
107-111): the text branch is checked first; only when it fails is the
inline-data branch tried (elif); a part matching neither is skipped. -/
def handle_part (audio_data : List Nat) (p : Part) : List Nat × List OutMsg :=
  match part_text_val p with
  | some t => (audio_data, handle_text_part t)
  | none =>
      match part_inline_val p with
      | some d => handle_audio_part audio_data d
      | none => (audio_data, [])

/-- Model of handle_model_turn (src/main.py lines 105-111): process the
parts in order, threading the turn-audio buffer. -/
def handle_model_turn (audio_data : List Nat) : List Part → List Nat × List OutMsg
  | [] => (audio_data, [])
  | p :: rest =>
      ((handle_model_turn (handle_part audio_data p).1 rest).1,
       (handle_part audio_data p).2
         ++ (handle_model_turn (handle_part audio_data p).1 rest).2)

/-- Server content of one remote event (src/main.py lines 117-128):
model_turn is none when falsy; turn_complete is its truthiness. -/
structure ServerContent where
  model_turn : Option (List Part)
  turn_complete : Bool
deriving DecidableEq

/-- One remote event: noContent models a response whose server_content is
falsy (logged as a warning and skipped). -/
inductive ServerEvent where
  | noContent
  | content (sc : ServerContent)
deriving DecidableEq

/-- Model of gemini_to_client_loop (src/main.py lines 114-128): for each
event, a model turn (when present) and a turn-complete marker (when set)
are handled independently, in that order, threading the buffer. -/
def gemini_to_client_loop (transcribe : List Nat → Option String) :
    List Nat → List ServerEvent → TurnResult
  | buf, [] => { audio_data := buf, sent := [], transcribeCalls := [] }
  | buf, ServerEvent.noContent :: rest => gemini_to_client_loop transcribe buf rest
  | buf, ServerEvent.content sc :: rest =>
      let step1 :=
        match sc.model_turn with
        | some parts => handle_model_turn buf parts
        | none => (buf, [])
      let step2 :=
        if sc.turn_complete then handle_turn_complete transcribe step1.1
        else { audio_data := step1.1, sent := [], transcribeCalls := [] }
      let step3 := gemini_to_client_loop transcribe step2.audio_data rest
      { audio_data := step3.audio_data,
        sent := step1.2 ++ step2.sent ++ step3.sent,
        transcribeCalls := step2.transcribeCalls ++ step3.transcribeCalls }

/-- Model of transcribe_audio (src/main.py lines 212-244), parameterised
by the codec (convert_pcm_to_mp3, which returns None on failure) and by
the remote transcription call (none models an exception, caught by the
outer try and turned into None). Empty input short-circuits to a fixed
sentinel; a falsy codec result (None or the empty string) short-circuits
to the conversion-failure sentinel. -/
def transcribe_audio (convert : List Nat → Option String)
    (generate : String → Option String) (audio_data : List Nat) : Option String :=
  if audio_data = [] then some "No audio data received."
  else
    match convert audio_data with
    | none => some "Audio conversion failed."
    | some mp3 =>
        if mp3 = "" then some "Audio conversion failed."
        else generate mp3

/-- JSON-like values for the configuration objects; numbers are exact
rationals (the source only copies them, never computes with them). -/
inductive JValue where
  | jstr : String → JValue
  | jnum : ℚ → JValue
  | jarr : List JValue → JValue
  | jobj : List (String × JValue) → JValue

/-- Lookup in an ordered key-value list, as Python dict indexing (first
matching key; real dicts have no duplicate keys). -/
def lookupJ (d : List (String × JValue)) (k : String) : Option JValue :=
  match d with
  | [] => none
  | (k2, v) :: rest => if k2 = k then some v else lookupJ rest k

/-- Python dict union d1 | d2 on ordered key-value lists: keys of d1 in
their order with values overridden by d2 where present, followed by keys
of d2 not in d1, in their order. -/
def dictUnion (d1 d2 : List (String × JValue)) : List (String × JValue) :=
  d1.map (fun p =>
    match lookupJ d2 p.1 with
    | some v => (p.1, v)
    | none => p)
  ++ d2.filter (fun p => (lookupJ d1 p.1).isNone)

/-- The default_config literal of gemini_session_handler (src/main.py
lines 165-178). -/
def default_config : List (String × JValue) :=
  [("generation_config", JValue.jobj
      [("response_modalities", JValue.jarr [JValue.jstr "AUDIO", JValue.jstr "TEXT"]),
       ("language", JValue.jstr "en"),
       ("temperature", JValue.jnum (7 / 10)),
       ("candidate_count", JValue.jnum 1)]),
   ("safety_settings", JValue.jobj
      [("harassment", JValue.jstr "block_none"),
       ("hate_speech", JValue.jstr "block_none"),
       ("sexually_explicit", JValue.jstr "block_none"),
       ("dangerous_content", JValue.jstr "block_none")])]

/-- The setup value built by gemini_session_handler (src/main.py lines
180-182) from a parsed initial message: config_data.get("setup", {})
defaults to the empty dict; merging default_config with a non-dict setup
value would raise a TypeError (modelled as none, the connection abort
path of the outer except). -/
def buildSetup (config_data : List (String × JValue)) :
    Option (List (String × JValue)) :=
  match lookupJ config_data "setup" with
  | none => some (dictUnion default_config [])
  | some (JValue.jobj client_setup) => some (dictUnion default_config client_setup)
  | some _ => none

/-- The full config object passed to client.aio.live.connect
(src/main.py line 182-186): the merged setup wrapped under the setup
key. -/
def session_config (config_data : List (String × JValue)) :
    Option (List (String × JValue)) :=
  (buildSetup config_data).map (fun m => [("setup", JValue.jobj m)])

/-- How the body of the session (the asyncio.gather of the two loops)
terminates: normally, by an exception, or by cancellation of the handler
task. -/
inductive BodyOutcome where
  | normal
  | errored
  | cancelled
deriving DecidableEq

/-- Resource events of one connection handled by gemini_session_handler:
sessionOpen and sessionClose are the enter and exit of the async-with over
client.aio.live.connect; loopsDone records how the gathered loops
ended. -/
inductive SessionEvent where
  | sessionOpen
  | loopsDone (o : BodyOutcome)
  | sessionClose
deriving DecidableEq

/-- Model of the resource trace of gemini_session_handler (src/main.py
lines 155-209). parseOk is whether json.loads succeeds on the initial
message (failure raises before any session is opened and is caught by the
JSONDecodeError handler); connectOk is whether client.aio.live.connect
enters successfully (failure opens nothing and is caught by the broad
except). Once the async-with is entered, Python guarantees its exit
(closing the session) runs on every outcome of the body: normal return,
exception, or cancellation; the finally block then cancels leftover
tasks. -/
def gemini_session_handler (parseOk connectOk : Bool) (o : BodyOutcome) :
    List SessionEvent :=
  if parseOk then
    if connectOk then
      [SessionEvent.sessionOpen, SessionEvent.loopsDone o, SessionEvent.sessionClose]
    else []
  else []

theorem client_to_gemini_loop_append (a b : List ClientMsg) :
    client_to_gemini_loop (a ++ b)
      = client_to_gemini_loop a ++ client_to_gemini_loop b := by
  induction a with
  | nil => simp [client_to_gemini_loop]
  | cons m rest ih => simp [client_to_gemini_loop, ih]

theorem processChunks_append (xs ys : List Chunk)
    (h : (processChunks xs).2 = none) :
    processChunks (xs ++ ys)
      = ((processChunks xs).1 ++ (processChunks ys).1, (processChunks ys).2) := by
  induction xs with
  | nil => simp [processChunks]
  | cons c rest ih =>
      simp only [processChunks] at h ⊢
      match hc : process_media_chunk c with
      | Except.error e => simp [hc] at h
      | Except.ok none =>
          simp only [hc] at h ⊢
          exact ih h
      | Except.ok (some r) =>
          simp only [hc] at h ⊢
          simp [ih h]

theorem foldl_audio_buffer (payloads : List (List Nat)) (acc : List Nat) :
    payloads.foldl (fun b d => (handle_audio_part b d).1) acc
      = acc ++ payloads.flatten := by
  induction payloads generalizing acc with
  | nil => simp
  | cons d rest ih =>
      simp only [List.foldl_cons]
      rw [ih]
      simp [handle_audio_part, List.append_assoc]

theorem lookupJ_append (a b : List (String × JValue)) (k : String) :
    lookupJ (a ++ b) k
      = (lookupJ a k).orElse (fun _ => lookupJ b k) := by
  induction a with
  | nil => simp [lookupJ, Option.orElse]
  | cons p rest ih =>
      by_cases hk : p.1 = k
      · simp [lookupJ, hk, Option.orElse]
      · simpa [lookupJ, hk, Option.orElse] using ih

theorem lookupJ_override (d1 d2 : List (String × JValue)) (k : String) :
    lookupJ (d1.map (fun p =>
        match lookupJ d2 p.1 with
        | some v => (p.1, v)
        | none => p)) k
      = (lookupJ d1 k).map (fun v1 =>
          match lookupJ d2 k with
          | some v => v
          | none => v1) := by
  induction d1 with
  | nil => simp [lookupJ]
  | cons p rest ih =>
      by_cases hk : p.1 = k
      · subst hk
        match h2 : lookupJ d2 p.1 with
        | some v => simp [lookupJ, h2]
        | none => simp [lookupJ, h2]
      · match h2 : lookupJ d2 p.1 with
        | some v => simpa [lookupJ, h2, hk] using ih
        | none => simpa [lookupJ, h2, hk] using ih

theorem lookupJ_filter_absent (d1 d2 : List (String × JValue)) (k : String) :
    lookupJ (d2.filter (fun p => (lookupJ d1 p.1).isNone)) k
      = if (lookupJ d1 k).isSome then none else lookupJ d2 k := by
  induction d2 with
  | nil => simp [lookupJ]
  | cons p rest ih =>
      by_cases hk : p.1 = k
      · subst hk
        match h1 : lookupJ d1 p.1 with
        | some v => simpa [List.filter, lookupJ, h1] using ih
        | none => simp [List.filter, lookupJ, h1]
      · match h1 : lookupJ d1 p.1 with
        | some v => simpa [List.filter_cons, lookupJ, h1, hk] using ih
        | none => simpa [List.filter_cons, lookupJ, h1, hk] using ih

theorem lookupJ_dictUnion (d1 d2 : List (String × JValue)) (k : String) :
    lookupJ (dictUnion d1 d2) k
      = (lookupJ d2 k).orElse (fun _ => lookupJ d1 k) := by
  rw [dictUnion, lookupJ_append, lookupJ_override, lookupJ_filter_absent]
  match h1 : lookupJ d1 k with
  | some v1 =>
      match h2 : lookupJ d2 k with
      | some v => simp [h2, Option.orElse]
      | none => simp [h2, Option.orElse]
  | none =>
      match h2 : lookupJ d2 k with
      | some v => simp [h2, Option.orElse]
      | none => simp [h2, Option.orElse]

/-- C1 counterexample: with a codec that fails (returns none) on every
input, handling a turn-complete event on the non-empty buffer [1] does
send an outbound text message, namely the sentinel string, refuting the
claim that no text message is sent. -/
theorem codec_failure_counterexample :
    ([1] : List Nat) ≠ [] ∧
    (fun (_ : List Nat) => (none : Option String)) [1] = none ∧
    (handle_turn_complete
        (transcribe_audio (fun _ => none) (fun _ => none)) [1]).sent
      = [OutMsg.text "Audio conversion failed."] := by
  refine ⟨by decide, rfl, rfl⟩

/-- C1 (amended): if codec conversion fails on the non-empty accumulated
turn audio, transcribe_audio returns the truthy sentinel string, so
handling the turn-complete event sends exactly one outbound text message
carrying that sentinel, and the turn-audio buffer is reset to empty. -/
theorem codec_failure_sends_sentinel
    (audio : List Nat) (convert : List Nat → Option String)
    (generate : String → Option String)
    (hne : audio ≠ []) (hc : convert audio = none) :
    transcribe_audio convert generate audio = some "Audio conversion failed." ∧
    handle_turn_complete (transcribe_audio convert generate) audio
      = { audio_data := [],
          sent := [OutMsg.text "Audio conversion failed."],
          transcribeCalls := [audio] } := by
  have ht : transcribe_audio convert generate audio
      = some "Audio conversion failed." := by
    simp [transcribe_audio, hne, hc]
  refine ⟨ht, ?_⟩
  simp [handle_turn_complete, hne, ht]

/-- C1 witness: the amended theorem applied at the buffer [1] with an
always-failing codec. -/
theorem codec_failure_sends_sentinel_witness :
    transcribe_audio (fun _ => none) (fun _ => none) [1]
      = some "Audio conversion failed." ∧
    handle_turn_complete (transcribe_audio (fun _ => none) (fun _ => none)) [1]
      = { audio_data := [],
          sent := [OutMsg.text "Audio conversion failed."],
          transcribeCalls := [[1]] } :=
  codec_failure_sends_sentinel [1] (fun _ => none) (fun _ => none) (by decide) rfl

/-- C2: after any number of inline-binary parts within one turn, the
turn-audio buffer equals the concatenation of the raw payloads in arrival
order, and after handling a turn-complete event the buffer is empty for
every transcription function, i.e. regardless of whether transcription
produced a result. -/
theorem turn_audio_accumulation_reset
    (payloads : List (List Nat)) (transcribe : List Nat → Option String) :
    payloads.foldl (fun buf d => (handle_audio_part buf d).1) []
      = payloads.flatten ∧
    (handle_turn_complete transcribe
        (payloads.foldl (fun buf d => (handle_audio_part buf d).1) [])).audio_data
      = [] := by
  have h := foldl_audio_buffer payloads []
  simp only [List.nil_append] at h
  refine ⟨h, ?_⟩
  rw [h]
  by_cases he : payloads.flatten = []
  · simp [handle_turn_complete, he]
  · simp [handle_turn_complete, he]

/-- C7: a model-turn part carrying non-empty inline binary data (and no
text, the defining shape of an inline-binary part) makes the relay send
exactly one audio message holding the standard base64 encoding of the raw
bytes and append the raw bytes to the turn-audio buffer; concretely, the
event stream of end-to-end scenario 3 (one inline part of bytes 1, 2,
then a turn-complete, with the transcriber stubbed to produce hi there)
sends the audio message AQI= followed by the stubbed transcript, leaving
the buffer empty. -/
theorem audio_part_base64_and_transcript
    (buf d : List Nat) (p : Part)
    (hp : p.text = none) (hid : p.inline_data = some d) (hne : d ≠ []) :
    handle_part buf p = (buf ++ d, [OutMsg.audio (base64Encode d)]) ∧
    gemini_to_client_loop (fun _ => some "hi there") []
        [ServerEvent.content ⟨some [⟨none, some [1, 2]⟩], false⟩,
         ServerEvent.content ⟨none, true⟩]
      = { audio_data := [],
          sent := [OutMsg.audio "AQI=", OutMsg.text "hi there"],
          transcribeCalls := [[1, 2]] } := by
  constructor
  · simp [handle_part, part_text_val, part_inline_val, hp, hid, hne,
      handle_audio_part]
  · rfl

/-- C7 witness: the theorem applied to a part carrying the bytes 1, 2 on
the buffer [7]. -/
theorem audio_part_base64_and_transcript_witness :
    handle_part [7] ⟨none, some [1, 2]⟩ = ([7, 1, 2], [OutMsg.audio "AQI="]) ∧
    gemini_to_client_loop (fun _ => some "hi there") []
        [ServerEvent.content ⟨some [⟨none, some [1, 2]⟩], false⟩,
         ServerEvent.content ⟨none, true⟩]
      = { audio_data := [],
          sent := [OutMsg.audio "AQI=", OutMsg.text "hi there"],
          transcribeCalls := [[1, 2]] } :=
  audio_part_base64_and_transcript [7] [1, 2] ⟨none, some [1, 2]⟩ rfl rfl (by decide)

/-- C8: handling a turn-complete event while the turn-audio buffer is
empty calls the transcriber on nothing and sends nothing, for every
transcription function. -/
theorem turn_complete_empty_no_transcribe (transcribe : List Nat → Option String) :
    handle_turn_complete transcribe []
      = { audio_data := [], sent := [], transcribeCalls := [] } := by
  rfl

/-- C10: a model-turn part carrying both a non-empty text attribute and
non-empty inline binary data sends only the text message; the binary data
is neither sent as an audio message nor appended to the turn-audio
buffer, because the elif makes the branches exclusive with text first. -/
theorem text_priority_over_inline_data
    (buf : List Nat) (p : Part) (t : String) (d : List Nat)
    (ht : p.text = some t) (hne : t ≠ "")
    (_hd : p.inline_data = some d) (_hdne : d ≠ []) :
    handle_part buf p = (buf, [OutMsg.text t]) := by
  simp [handle_part, part_text_val, ht, hne, handle_text_part]

/-- C10 witness: the theorem applied to a part carrying both the text x
and the bytes [1]. -/
theorem text_priority_over_inline_data_witness :
    handle_part [] ⟨some "x", some [1]⟩ = ([], [OutMsg.text "x"]) :=
  text_priority_over_inline_data [] ⟨some "x", some [1]⟩ "x" [1] rfl
    (by decide) rfl (by decide)

/-- Spec-side description of the forwarding decision for one media chunk,
written from the words of C3 for comparison with process_media_chunk: a
chunk whose mime_type is exactly audio/pcm or image/jpeg yields a record
with its tag and unmodified data; any other tag, or a missing tag, yields
nothing. -/
def spec_forwarded_chunk (c : Chunk) : Option SendRec :=
  match c.mime_type with
  | some m =>
      if m = "audio/pcm" ∨ m = "image/jpeg" then
        c.data.map (fun d => SendRec.mk m d)
      else none
  | none => none

theorem processChunks_filterMap (chunks : List Chunk) :
    (∀ c ∈ chunks, c.data.isSome) →
    processChunks chunks = (chunks.filterMap spec_forwarded_chunk, none) := by
  induction chunks with
  | nil => intro _; rfl
  | cons c rest ih =>
      intro h
      have hc : c.data.isSome := h c (by simp)
      obtain ⟨d, hd⟩ := Option.isSome_iff_exists.mp hc
      have hrest := ih (fun x hx => h x (by simp [hx]))
      match hm : c.mime_type with
      | some m =>
          by_cases hrec : m = "audio/pcm" ∨ m = "image/jpeg"
          · simp [processChunks, process_media_chunk, hm, hrec, hd,
              spec_forwarded_chunk, List.filterMap_cons, hrest]
          · simp [processChunks, process_media_chunk, hm, hrec,
              spec_forwarded_chunk, List.filterMap_cons, hrest]
      | none =>
          simp [processChunks, process_media_chunk, hm,
            spec_forwarded_chunk, List.filterMap_cons, hrest]

/-- C3: over a realtime_input message whose chunks all carry a data
field, the records sent to the InferenceSession are exactly the chunks
with a recognized mime_type, with their tag and unmodified data, in
arrival order, with no error; all other chunks, missing mime_type
included, send nothing. -/
theorem media_chunk_filtering (chunks : List Chunk)
    (h : ∀ c ∈ chunks, c.data.isSome) :
    processChunks chunks = (chunks.filterMap spec_forwarded_chunk, none) ∧
    handle_client_message (ClientMsg.parsed ⟨some ⟨some chunks⟩⟩)
      = chunks.filterMap spec_forwarded_chunk := by
  have key := processChunks_filterMap chunks h
  exact ⟨key, by simp [handle_client_message, key]⟩

/-- C3 witness: the theorem applied to one recognized and one
unrecognized chunk. -/
theorem media_chunk_filtering_witness :
    processChunks [⟨some "audio/pcm", some "AAA="⟩, ⟨some "text/html", some "x"⟩]
      = ([SendRec.mk "audio/pcm" "AAA="], none) ∧
    handle_client_message (ClientMsg.parsed ⟨some ⟨some
        [⟨some "audio/pcm", some "AAA="⟩, ⟨some "text/html", some "x"⟩]⟩⟩)
      = [SendRec.mk "audio/pcm" "AAA="] := by
  have h := media_chunk_filtering
    [⟨some "audio/pcm", some "AAA="⟩, ⟨some "text/html", some "x"⟩] (by decide)
  exact ⟨h.1.trans (by decide), h.2.trans (by decide)⟩

/-- C4: an inbound client message that is not valid JSON or has no
realtime_input key sends nothing to the InferenceSession, and the
client-to-remote loop over any message sequence containing it behaves as
if the message were absent: preceding and subsequent valid messages are
processed normally. -/
theorem invalid_message_dropped_loop_continues
    (pre post : List ClientMsg) (bad : ClientMsg)
    (hbad : bad = ClientMsg.invalid ∨
      ∃ obj, bad = ClientMsg.parsed obj ∧ obj.realtime_input = none) :
    handle_client_message bad = [] ∧
    client_to_gemini_loop (pre ++ bad :: post)
      = client_to_gemini_loop pre ++ client_to_gemini_loop post := by
  have hz : handle_client_message bad = [] := by
    rcases hbad with h | ⟨obj, rfl, hri⟩
    · subst h; rfl
    · simp [handle_client_message, hri]
  refine ⟨hz, ?_⟩
  rw [client_to_gemini_loop_append]
  simp [client_to_gemini_loop, hz]

/-- C4 witness: the theorem applied to an invalid message between two
valid realtime_input messages. -/
theorem invalid_message_dropped_loop_continues_witness :
    handle_client_message ClientMsg.invalid = [] ∧
    client_to_gemini_loop
        ([ClientMsg.parsed ⟨some ⟨some [⟨some "audio/pcm", some "AAA="⟩]⟩⟩]
          ++ ClientMsg.invalid
          :: [ClientMsg.parsed ⟨some ⟨some [⟨some "image/jpeg", some "QUJD"⟩]⟩⟩])
      = client_to_gemini_loop
          [ClientMsg.parsed ⟨some ⟨some [⟨some "audio/pcm", some "AAA="⟩]⟩⟩]
        ++ client_to_gemini_loop
          [ClientMsg.parsed ⟨some ⟨some [⟨some "image/jpeg", some "QUJD"⟩]⟩⟩] :=
  invalid_message_dropped_loop_continues _ _ ClientMsg.invalid (Or.inl rfl)

/-- C9: a chunk with a recognized mime_type but no data field raises the
KeyError modelled as Except.error on the data key; within its message the
chunks already forwarded stay forwarded, the failing chunk and all later
chunks are dropped, and the error is caught at the per-message boundary,
so the client-to-remote loop still processes subsequent messages. -/
theorem missing_data_keyerror_contained
    (pre rest : List Chunk) (c : Chunk) (post : List ClientMsg)
    (hm : c.mime_type = some "audio/pcm" ∨ c.mime_type = some "image/jpeg")
    (hd : c.data = none)
    (hpre : (processChunks pre).2 = none) :
    process_media_chunk c = Except.error "data" ∧
    processChunks (pre ++ c :: rest) = ((processChunks pre).1, some "data") ∧
    client_to_gemini_loop
        (ClientMsg.parsed ⟨some ⟨some (pre ++ c :: rest)⟩⟩ :: post)
      = (processChunks pre).1 ++ client_to_gemini_loop post := by
  have herr : process_media_chunk c = Except.error "data" := by
    rcases hm with h | h <;> simp [process_media_chunk, h, hd]
  have hcr : processChunks (c :: rest) = ([], some "data") := by
    simp [processChunks, herr]
  have hsplit := processChunks_append pre (c :: rest) hpre
  rw [hcr] at hsplit
  simp only [List.append_nil] at hsplit
  refine ⟨herr, hsplit, ?_⟩
  simp [client_to_gemini_loop, handle_client_message, hsplit]

/-- C9 witness: the theorem applied to a message whose second chunk lacks
data, followed by a further valid message. -/
theorem missing_data_keyerror_contained_witness :
    process_media_chunk ⟨some "image/jpeg", none⟩ = Except.error "data" ∧
    processChunks
        ([⟨some "audio/pcm", some "AAA="⟩]
          ++ (⟨some "image/jpeg", none⟩ : Chunk)
          :: [⟨some "audio/pcm", some "BBBB"⟩])
      = ((processChunks [⟨some "audio/pcm", some "AAA="⟩]).1, some "data") ∧
    client_to_gemini_loop
        (ClientMsg.parsed ⟨some ⟨some
            ([⟨some "audio/pcm", some "AAA="⟩]
              ++ (⟨some "image/jpeg", none⟩ : Chunk)
              :: [⟨some "audio/pcm", some "BBBB"⟩])⟩⟩
          :: [ClientMsg.parsed ⟨some ⟨some [⟨some "image/jpeg", some "QUJD"⟩]⟩⟩])
      = (processChunks [⟨some "audio/pcm", some "AAA="⟩]).1
        ++ client_to_gemini_loop
          [ClientMsg.parsed ⟨some ⟨some [⟨some "image/jpeg", some "QUJD"⟩]⟩⟩] :=
  missing_data_keyerror_contained
    [⟨some "audio/pcm", some "AAA="⟩] [⟨some "audio/pcm", some "BBBB"⟩]
    ⟨some "image/jpeg", none⟩
    [ClientMsg.parsed ⟨some ⟨some [⟨some "image/jpeg", some "QUJD"⟩]⟩⟩]
    (Or.inr rfl) rfl rfl

/-- C5: for every initial message that parses, the setup object passed to
InferenceSession-open is the fixed default configuration (modalities
AUDIO and TEXT, language en, temperature 0.7, candidate count 1, the four
harm categories set to block_none) merged with the optional client setup
object, client keys taking precedence key-by-key at the top level only;
when setup is absent the result is exactly the defaults. -/
theorem session_config_merge (config_data : List (String × JValue)) :
    (lookupJ config_data "setup" = none →
      buildSetup config_data = some default_config ∧
      session_config config_data = some [("setup", JValue.jobj default_config)] ∧
      default_config =
        [("generation_config", JValue.jobj
            [("response_modalities",
                JValue.jarr [JValue.jstr "AUDIO", JValue.jstr "TEXT"]),
             ("language", JValue.jstr "en"),
             ("temperature", JValue.jnum (7 / 10)),
             ("candidate_count", JValue.jnum 1)]),
         ("safety_settings", JValue.jobj
            [("harassment", JValue.jstr "block_none"),
             ("hate_speech", JValue.jstr "block_none"),
             ("sexually_explicit", JValue.jstr "block_none"),
             ("dangerous_content", JValue.jstr "block_none")])]) ∧
    (∀ client_setup,
      lookupJ config_data "setup" = some (JValue.jobj client_setup) →
      ∃ m, buildSetup config_data = some m ∧
        session_config config_data = some [("setup", JValue.jobj m)] ∧
        ∀ k, lookupJ m k
          = (lookupJ client_setup k).orElse (fun _ => lookupJ default_config k)) := by
  constructor
  · intro h
    have hb : buildSetup config_data = some default_config := by
      simp only [buildSetup, h]
      rfl
    exact ⟨hb, by simp [session_config, hb], rfl⟩
  · intro client_setup h
    have hb : buildSetup config_data = some (dictUnion default_config client_setup) := by
      simp [buildSetup, h]
    exact ⟨dictUnion default_config client_setup, hb,
      by simp [session_config, hb],
      fun k => lookupJ_dictUnion default_config client_setup k⟩

/-- C5 witness: the theorem applied to a message overriding language and
to a message with no setup key. -/
theorem session_config_merge_witness :
    (∃ m, buildSetup [("setup", JValue.jobj [("language", JValue.jstr "fr")])]
        = some m ∧
      lookupJ m "language" = some (JValue.jstr "fr") ∧
      lookupJ m "safety_settings" = lookupJ default_config "safety_settings") ∧
    buildSetup [("other", JValue.jnum 1)] = some default_config := by
  constructor
  · obtain ⟨m, hm, -, hk⟩ :=
      (session_config_merge
        [("setup", JValue.jobj [("language", JValue.jstr "fr")])]).2
        [("language", JValue.jstr "fr")] rfl
    refine ⟨m, hm, ?_, ?_⟩
    · rw [hk "language"]; rfl
    · rw [hk "safety_settings"]; rfl
  · exact ((session_config_merge [("other", JValue.jnum 1)]).1 rfl).1

/-- C6 counterexample: an accepted connection whose initial message fails
to parse as JSON opens zero InferenceSessions, not exactly one. -/
theorem session_open_counterexample :
    (gemini_session_handler false true BodyOutcome.normal).count
        SessionEvent.sessionOpen = 0 ∧
    ¬ (gemini_session_handler false true BodyOutcome.normal).count
        SessionEvent.sessionOpen = 1 := by
  decide

/-- C6 (amended): every accepted connection opens at most one
InferenceSession, opens exactly as many sessions as it closes, and when
the handshake parses and the session-open succeeds it opens exactly one
and closes it exactly once, on every terminating path of the loop body:
normal completion, exception, or cancellation. -/
theorem session_open_close_balanced (parseOk connectOk : Bool) (o : BodyOutcome) :
    (gemini_session_handler parseOk connectOk o).count
        SessionEvent.sessionOpen ≤ 1 ∧
    (gemini_session_handler parseOk connectOk o).count SessionEvent.sessionOpen
      = (gemini_session_handler parseOk connectOk o).count
          SessionEvent.sessionClose ∧
    (parseOk = true → connectOk = true →
      (gemini_session_handler parseOk connectOk o).count
          SessionEvent.sessionOpen = 1 ∧
      (gemini_session_handler parseOk connectOk o).count
          SessionEvent.sessionClose = 1) := by
  cases parseOk <;> cases connectOk <;> cases o <;> decide

/-- C6 witness: the amended theorem applied to a connection whose handshake
and open succeed and whose loop body is cancelled. -/
theorem session_open_close_balanced_witness :
    (gemini_session_handler true true BodyOutcome.cancelled).count
        SessionEvent.sessionOpen = 1 ∧
    (gemini_session_handler true true BodyOutcome.cancelled).count
        SessionEvent.sessionClose = 1 :=
  (session_open_close_balanced true true BodyOutcome.cancelled).2.2 rfl rfl

end ScreenShare
